import Mathlib

/-
Verification development for the Sardene-API service (Go, gin + MongoDB).
The definitions below are a shallow embedding of the handlers and helpers
in the main source file: likeAnIdea, extractAuthHeader, getUserGithubProfile,
authenticateUser and addUserToDatabase, together with the document-store
state they manipulate.  Strings are embedded as List Char, Go int64 values
as Int, MongoDB ObjectIDs as their 12 decoded bytes (List Nat).  Network
and storage failures, which in Go surface as non-nil error values, are
supplied by explicit environment records of Bool flags and Option results.
-/

namespace Sardene

/-- Byte value of a hex digit, mirroring what encoding/hex accepts in
primitive.ObjectIDFromHex: digits, lowercase a-f and uppercase A-F. -/
def hexVal (c : Char) : Option Nat :=
  if ('0' ≤ c ∧ c ≤ '9') then some (c.toNat - '0'.toNat)
  else if ('a' ≤ c ∧ c ≤ 'f') then some (c.toNat - 'a'.toNat + 10)
  else if ('A' ≤ c ∧ c ≤ 'F') then some (c.toNat - 'A'.toNat + 10)
  else none

/-- Decode a hex string two digits at a time into bytes, as
encoding/hex DecodeString does; odd length or a non-hex digit fails. -/
def decodeHexBytes : List Char → Option (List Nat)
  | [] => some []
  | [_] => none
  | c1 :: c2 :: rest =>
    match hexVal c1, hexVal c2, decodeHexBytes rest with
    | some h, some l, some bs => some ((16 * h + l) :: bs)
    | _, _, _ => none

/-- primitive.ObjectIDFromHex: the string must be exactly 24 characters
long and decode as hex; the result is the 12-byte object id. -/
def objectIDFromHex (s : List Char) : Option (List Nat) :=
  if s.length = 24 then decodeHexBytes s else none

/-- IdeaStructure: the idea document as stored in the ideas collection. -/
structure IdeaRec where
  id : List Nat
  name : List Char
  description : List Char
  publisher : List Char
  publisherID : Int
  makers : Int
  gazers : Int
  createdAt : Int
deriving DecidableEq

/-- IdeaLikesStructure: one like record in the likes collection. -/
structure LikeRec where
  userID : Int
  ideaID : List Nat
deriving DecidableEq

/-- The shared document store: the ideas collection and the likes
collection, each a list of documents in insertion order. -/
structure DBState where
  ideas : List IdeaRec
  likes : List LikeRec
deriving DecidableEq

/-- FindOne on the ideas collection with filter on the id field:
the first document whose id matches. -/
def findFirstIdea (oid : List Nat) : List IdeaRec → Option IdeaRec
  | [] => none
  | r :: rest => if r.id = oid then some r else findFirstIdea oid rest

/-- FindOne on the likes collection with filter on userID and ideaID:
the first like record of the pair. -/
def findLikeRec (uid : Int) (oid : List Nat) : List LikeRec → Option LikeRec
  | [] => none
  | r :: rest =>
    if r.userID = uid ∧ r.ideaID = oid then some r else findLikeRec uid oid rest

/-- Number of like records for a given (user, idea) pair, the ledger
cardinality of the spec. -/
def countLikes (uid : Int) (oid : List Nat) : List LikeRec → Nat
  | [] => 0
  | r :: rest =>
    (if r.userID = uid ∧ r.ideaID = oid then 1 else 0) + countLikes uid oid rest

/-- UpdateOne on the ideas collection with an inc of gazers by one:
MongoDB updates the first matching document only. -/
def incFirstGazers (oid : List Nat) : List IdeaRec → List IdeaRec
  | [] => []
  | r :: rest =>
    if r.id = oid then { r with gazers := r.gazers + 1 } :: rest
    else r :: incFirstGazers oid rest

/-- The gazers counter of the idea a FindOne on the given id would return. -/
def gazersOf (oid : List Nat) (db : DBState) : Option Int :=
  (findFirstIdea oid db.ideas).map (fun r => r.gazers)

/-- Storage calls likeAnIdea issues, in program order. -/
inductive StorageOp
  | findIdea (id : List Nat)
  | findLike (userID : Int) (ideaID : List Nat)
  | updateIdea (id : List Nat)
  | insertLike (userID : Int) (ideaID : List Nat)
deriving DecidableEq

/-- Environment of one likeAnIdea call: the outcome of
validateAndGetUser (some uid on success), and whether each of the four
storage interactions fails with a transport or decode error that is not
the no-documents result. -/
structure LikeEnv where
  auth : Option Int
  ideaFindErr : Bool
  likesFindErr : Bool
  updateErr : Bool
  insertErr : Bool
deriving DecidableEq

/-- The likeAnIdea handler, PATCH idea gaze.  Returns the HTTP status,
the document store afterwards, and the trace of storage calls made.
Control flow follows the source: hex-validate the id (400), resolve the
user from the bearer header (401), FindOne the idea (404 when absent or
on a decode error), FindOne the likes pair where the already-liked flag
starts true and is cleared only by the no-documents result (409 when it
stays true), then UpdateOne incrementing gazers (404 on error) and only
afterwards InsertOne of the like record (500 on error). -/
def likeAnIdea (ideaID : List Char) (env : LikeEnv) (db : DBState) :
    Nat × DBState × List StorageOp :=
  match objectIDFromHex ideaID with
  | none => (400, db, [])
  | some oid =>
    match env.auth with
    | none => (401, db, [])
    | some uid =>
      let ops1 := [StorageOp.findIdea oid]
      if env.ideaFindErr then (404, db, ops1)
      else
        match findFirstIdea oid db.ideas with
        | none => (404, db, ops1)
        | some _ =>
          let ops2 := ops1 ++ [StorageOp.findLike uid oid]
          let didUserLikedIdeaBefore :=
            if env.likesFindErr then true
            else (findLikeRec uid oid db.likes).isSome
          if didUserLikedIdeaBefore then (409, db, ops2)
          else
            let ops3 := ops2 ++ [StorageOp.updateIdea oid]
            if env.updateErr then (404, db, ops3)
            else
              let db1 : DBState := { db with ideas := incFirstGazers oid db.ideas }
              let ops4 := ops3 ++ [StorageOp.insertLike uid oid]
              if env.insertErr then (500, db1, ops4)
              else (200, { db1 with likes := db1.likes ++ [⟨uid, oid⟩] }, ops4)

/-- Environment with a successfully authenticated user and no storage
failures. -/
def okLikeEnv (uid : Int) : LikeEnv :=
  ⟨some uid, false, false, false, false⟩

/-- Whitespace as unicode.IsSpace treats the Latin-1 range, used by
strings.TrimSpace: space, tab, newline, vertical tab, form feed,
carriage return, next line, no-break space. -/
def isSpaceChar (c : Char) : Bool :=
  c = ' ' || c = '\t' || c = '\n' || c.toNat = 11 || c.toNat = 12 ||
  c = '\r' || c.toNat = 133 || c.toNat = 160

/-- Whether the first list is an initial segment of the second. -/
def leadsWith : List Char → List Char → Bool
  | [], _ => true
  | _ :: _, [] => false
  | a :: as, b :: bs => (a == b) && leadsWith as bs

/-- strings.Contains: the first list occurs as a contiguous run in the
second. -/
def hasSubstr (sub : List Char) : List Char → Bool
  | [] => sub.isEmpty
  | c :: rest => leadsWith sub (c :: rest) || hasSubstr sub rest

/-- strings.TrimPrefix: drop the given initial segment when present,
otherwise return the list unchanged. -/
def trimLead (pre s : List Char) : List Char :=
  if leadsWith pre s then s.drop pre.length else s

/-- strings.TrimSpace: remove leading and trailing whitespace. -/
def trimSpace (s : List Char) : List Char :=
  ((s.dropWhile isSpaceChar).reverse.dropWhile isSpaceChar).reverse

/-- The literal Bearer used by extractAuthHeader. -/
def bearerChars : List Char := ['B', 'e', 'a', 'r', 'e', 'r']

/-- The extractAuthHeader helper: reject an empty header, reject a
header that does not contain Bearer anywhere, strip a leading Bearer,
trim surrounding whitespace, and reject the remainder when it still
contains a space character; none stands for the invalid authentication
header format error. -/
def extractAuthHeader (authHeader : List Char) : Option (List Char) :=
  if authHeader.length = 0 then none
  else if hasSubstr bearerChars authHeader = false then none
  else
    let trimmed := trimSpace (trimLead bearerChars authHeader)
    if hasSubstr [' '] trimmed then none else some trimmed

/-- Modelled from the spec words, for comparison with the code: a header
carries the single-token Bearer form when it is exactly the literal
Bearer, one space, and a nonempty token containing no whitespace. -/
def specBearerForm (s : List Char) : Bool :=
  leadsWith (bearerChars ++ [' ']) s &&
  !(s.drop 7).isEmpty &&
  (s.drop 7).all (fun c => !(isSpaceChar c))

/-- GithubUserProfileStructure: the fields read from the provider
profile response. -/
structure GithubUserProfileStructure where
  userID : Int
  login : List Char
  name : List Char
deriving DecidableEq

/-- GithubAccessTokenResponse: the fields read from the provider token
exchange response. -/
structure GithubAccessTokenResponse where
  accessToken : List Char
  tokenType : List Char
  scope : List Char
deriving DecidableEq

/-- One record of the users collection. -/
structure UserRec where
  userID : Int
  login : List Char
  name : List Char
deriving DecidableEq

/-- FindOne on the users collection with filter on userID. -/
def findUserRec (uid : Int) : List UserRec → Option UserRec
  | [] => none
  | r :: rest => if r.userID = uid then some r else findUserRec uid rest

/-- Number of user records carrying the given external id. -/
def countUsers (uid : Int) : List UserRec → Nat
  | [] => 0
  | r :: rest => (if r.userID = uid then 1 else 0) + countUsers uid rest

/-- Environment of one getUserGithubProfile call: whether building the
request, the round trip, or reading the body fails, and the parsed
profile (none on a JSON decoding error). -/
structure ProfileEnv where
  reqErr : Bool
  respErr : Bool
  readErr : Bool
  parsed : Option GithubUserProfileStructure
deriving DecidableEq

/-- getUserGithubProfile: fail on request construction, transport, body
read or JSON decode failure, and reject a decoded profile whose login
is empty (the invalid user error); none stands for any error return. -/
def getUserGithubProfile (env : ProfileEnv) : Option GithubUserProfileStructure :=
  if env.reqErr then none
  else if env.respErr then none
  else if env.readErr then none
  else
    match env.parsed with
    | none => none
    | some p => if p.login = [] then none else some p

/-- addUserToDatabase: FindOne the users collection by external id; a
decode error other than the no-documents result is returned as is
(findErr); when the user exists return with no update; otherwise
InsertOne a record built from the profile (insertErr on failure);
none stands for an error return. -/
def addUserToDatabase (u : GithubUserProfileStructure) (findErr insertErr : Bool)
    (users : List UserRec) : Option (List UserRec) :=
  if findErr then none
  else
    match findUserRec u.userID users with
    | some _ => some users
    | none =>
      if insertErr then none
      else some (users ++ [⟨u.userID, u.login, u.name⟩])

/-- What the client observes from one authenticateUser call: either a
JSON response with a status, or a crash of the handler from calling the
Error method on a nil error value (the surrounding recovery middleware
turns such a crash into a 500 response). -/
inductive HandlerOutcome
  | response (status : Nat)
  | nilErrCrash
deriving DecidableEq

/-- Environment of one authenticateUser call: the bound request body
(none on a binding error), failure flags for building, sending and
reading the token exchange request, the parsed token response (none on
a JSON decoding error), the environment of the nested profile call, and
the failure flags of the directory lookup and insert. -/
structure AuthEnv where
  bound : Option (List Char)
  postReqErr : Bool
  postDoErr : Bool
  postReadErr : Bool
  tokenParsed : Option GithubAccessTokenResponse
  profileEnv : ProfileEnv
  dirFindErr : Bool
  dirInsertErr : Bool
deriving DecidableEq

/-- authenticateUser, POST auth.  Binding failure answers 400.  In the
branches for a failed request build, round trip, body read or token
decode, the source formats errorDetails from errInInput which is nil
there, so those branches crash on a nil error value instead of
answering.  A failed profile call answers 403, a failed directory call
answers 403, and success stores the user and answers 200. -/
def authenticateUser (env : AuthEnv) (users : List UserRec) :
    HandlerOutcome × List UserRec :=
  match env.bound with
  | none => (.response 400, users)
  | some _ =>
    if env.postReqErr then (.nilErrCrash, users)
    else if env.postDoErr then (.nilErrCrash, users)
    else if env.postReadErr then (.nilErrCrash, users)
    else
      match env.tokenParsed with
      | none => (.nilErrCrash, users)
      | some _ =>
        match getUserGithubProfile env.profileEnv with
        | none => (.response 403, users)
        | some profile =>
          match addUserToDatabase profile env.dirFindErr env.dirInsertErr users with
          | none => (.response 403, users)
          | some users2 => (.response 200, users2)

/-- The status the client sees: the recovery middleware installed by
gin turns a handler crash into a 500 response. -/
def routerStatus : HandlerOutcome → Nat
  | .response s => s
  | .nilErrCrash => 500

/-- The token exchange fails to yield a verified identity: the request
build, round trip or body read fails, the token response does not
decode, or the profile call fails (upstream failure, malformed profile,
or an empty login). -/
def exchangeFails (env : AuthEnv) : Prop :=
  env.postReqErr = true ∨ env.postDoErr = true ∨ env.postReadErr = true ∨
  env.tokenParsed = none ∨ getUserGithubProfile env.profileEnv = none

/-- Program points of the storage portion of one likeAnIdea call, used
to interleave two concurrent calls: the idea FindOne, the likes FindOne
duplicate check, the gazers UpdateOne, the likes InsertOne. -/
inductive LikePhase
  | findIdea
  | checkDup
  | incCount
  | insertRec
  | done
deriving DecidableEq

/-- One in-flight likeAnIdea call: its next program point and, once
finished, its HTTP status. -/
structure LikeThread where
  phase : LikePhase
  result : Option Nat
deriving DecidableEq

/-- One atomic storage step of a likeAnIdea call against the shared
store, faithful to the order in the source: FindOne the idea (404 when
absent), FindOne the likes pair (409 when present), UpdateOne
incrementing gazers, InsertOne the like record (200). -/
def stepLike (uid : Int) (oid : List Nat) (t : LikeThread) (db : DBState) :
    LikeThread × DBState :=
  match t.phase with
  | .findIdea =>
    match findFirstIdea oid db.ideas with
    | none => (⟨.done, some 404⟩, db)
    | some _ => (⟨.checkDup, t.result⟩, db)
  | .checkDup =>
    match findLikeRec uid oid db.likes with
    | some _ => (⟨.done, some 409⟩, db)
    | none => (⟨.incCount, t.result⟩, db)
  | .incCount =>
    (⟨.insertRec, t.result⟩, { db with ideas := incFirstGazers oid db.ideas })
  | .insertRec =>
    (⟨.done, some 200⟩, { db with likes := db.likes ++ [⟨uid, oid⟩] })
  | .done => (t, db)

/-- Two concurrent likeAnIdea calls by the same user on the same idea
over one shared store. -/
structure TwoLikes where
  ta : LikeThread
  tb : LikeThread
  db : DBState
deriving DecidableEq

/-- Run one step of the chosen call: true steps the first call, false
the second. -/
def stepTwo (uid : Int) (oid : List Nat) (s : TwoLikes) (choice : Bool) : TwoLikes :=
  if choice then
    let p := stepLike uid oid s.ta s.db
    ⟨p.1, s.tb, p.2⟩
  else
    let p := stepLike uid oid s.tb s.db
    ⟨s.ta, p.1, p.2⟩

/-- Run the two calls under the given interleaving schedule. -/
def runTwo (uid : Int) (oid : List Nat) : List Bool → TwoLikes → TwoLikes
  | [], s => s
  | c :: rest, s => runTwo uid oid rest (stepTwo uid oid s c)

/-- A 24-character hex idea id from the spec scenarios. -/
def hex24 : List Char := "507f1f77bcf86cd799439011".toList

/-- The object id the hex id above decodes to. -/
def oid24 : List Nat := [80, 127, 31, 119, 188, 248, 108, 215, 153, 67, 144, 17]

/-- A concrete idea document with both counters at zero. -/
def idea0 : IdeaRec :=
  ⟨oid24, ['i'], ['d'], ['p'], 7, 0, 0, 0⟩

/-- A store holding that one idea and no like records. -/
def db0 : DBState := ⟨[idea0], []⟩

/-- A concrete environment for the auth flow in which every exchange
step succeeds but the decoded profile carries an empty login. -/
def emptyLoginEnv : AuthEnv :=
  ⟨some ("abc123".toList), false, false, false,
   some ⟨"tok".toList, "bearer".toList, []⟩,
   ⟨false, false, false, some ⟨5, [], "Nameless".toList⟩⟩, false, false⟩

/-- A concrete environment for the auth flow in which the body binds
but the token exchange round trip fails. -/
def doErrEnv : AuthEnv :=
  ⟨some ("abc123".toList), false, true, false, none,
   ⟨false, false, false, none⟩, false, false⟩

theorem findFirstIdea_incFirstGazers (oid : List Nat) (l : List IdeaRec) :
    findFirstIdea oid (incFirstGazers oid l)
      = (findFirstIdea oid l).map (fun r => { r with gazers := r.gazers + 1 }) := by
  induction l with
  | nil => rfl
  | cons a t ih =>
    by_cases h : a.id = oid
    · simp [findFirstIdea, incFirstGazers, h]
    · simp [findFirstIdea, incFirstGazers, h, ih]

theorem findLikeRec_append_self (uid : Int) (oid : List Nat) (l : List LikeRec) :
    (findLikeRec uid oid (l ++ [⟨uid, oid⟩])).isSome = true := by
  induction l with
  | nil => simp [findLikeRec]
  | cons a t ih =>
    by_cases h : a.userID = uid ∧ a.ideaID = oid
    · simp [findLikeRec, h]
    · simp [findLikeRec, h, ih]

theorem countLikes_append (uid : Int) (oid : List Nat) (l1 l2 : List LikeRec) :
    countLikes uid oid (l1 ++ l2) = countLikes uid oid l1 + countLikes uid oid l2 := by
  induction l1 with
  | nil => simp [countLikes]
  | cons a t ih => simp [countLikes, ih, Nat.add_assoc]

theorem countLikes_eq_zero (uid : Int) (oid : List Nat) (l : List LikeRec)
    (h : findLikeRec uid oid l = none) : countLikes uid oid l = 0 := by
  induction l with
  | nil => rfl
  | cons a t ih =>
    by_cases hp : a.userID = uid ∧ a.ideaID = oid
    · simp [findLikeRec, hp] at h
    · simp only [findLikeRec, if_neg hp] at h
      simp [countLikes, hp, ih h]

/-- Claim C1: from a state where the idea exists and the user has no
like record for it, two sequential like calls by that user (no storage
failures) answer 200 then 409, the second call leaves the store of the
first call unchanged, and the final store holds exactly one like record
for the pair with the gazers counter incremented exactly once. -/
theorem C1_like_twice (s : List Char) (oid : List Nat) (uid : Int)
    (db : DBState) (r : IdeaRec)
    (hhex : objectIDFromHex s = some oid)
    (hidea : findFirstIdea oid db.ideas = some r)
    (hnot : findLikeRec uid oid db.likes = none) :
    (likeAnIdea s (okLikeEnv uid) db).1 = 200 ∧
    (likeAnIdea s (okLikeEnv uid) (likeAnIdea s (okLikeEnv uid) db).2.1).1 = 409 ∧
    (likeAnIdea s (okLikeEnv uid) (likeAnIdea s (okLikeEnv uid) db).2.1).2.1
      = (likeAnIdea s (okLikeEnv uid) db).2.1 ∧
    countLikes uid oid
      (likeAnIdea s (okLikeEnv uid) (likeAnIdea s (okLikeEnv uid) db).2.1).2.1.likes = 1 ∧
    gazersOf oid (likeAnIdea s (okLikeEnv uid) (likeAnIdea s (okLikeEnv uid) db).2.1).2.1
      = (gazersOf oid db).map (fun g => g + 1) := by
  have hfst : likeAnIdea s (okLikeEnv uid) db
      = (200, ⟨incFirstGazers oid db.ideas, db.likes ++ [⟨uid, oid⟩]⟩,
         [StorageOp.findIdea oid, StorageOp.findLike uid oid,
          StorageOp.updateIdea oid, StorageOp.insertLike uid oid]) := by
    simp [likeAnIdea, okLikeEnv, hhex, hidea, hnot]
  have hidea2 : findFirstIdea oid (incFirstGazers oid db.ideas)
      = some { r with gazers := r.gazers + 1 } := by
    rw [findFirstIdea_incFirstGazers, hidea]
    rfl
  have hlike2 : (findLikeRec uid oid (db.likes ++ [⟨uid, oid⟩])).isSome = true :=
    findLikeRec_append_self uid oid db.likes
  have hsnd : likeAnIdea s (okLikeEnv uid)
        (⟨incFirstGazers oid db.ideas, db.likes ++ [⟨uid, oid⟩]⟩ : DBState)
      = (409, ⟨incFirstGazers oid db.ideas, db.likes ++ [⟨uid, oid⟩]⟩,
         [StorageOp.findIdea oid, StorageOp.findLike uid oid]) := by
    simp [likeAnIdea, okLikeEnv, hhex, hidea2, hlike2]
  refine ⟨by rw [hfst], ?_, ?_, ?_, ?_⟩
  · simp [hfst, hsnd]
  · simp [hfst, hsnd]
  · simp [hfst, hsnd, countLikes_append, countLikes_eq_zero uid oid db.likes hnot, countLikes]
  · simp [hfst, hsnd, gazersOf, hidea, hidea2]

theorem C1_witness :
    (objectIDFromHex hex24 = some oid24 ∧
     findFirstIdea oid24 db0.ideas = some idea0 ∧
     findLikeRec 1 oid24 db0.likes = none) ∧
    ((likeAnIdea hex24 (okLikeEnv 1) db0).1 = 200 ∧
     (likeAnIdea hex24 (okLikeEnv 1) (likeAnIdea hex24 (okLikeEnv 1) db0).2.1).1 = 409 ∧
     (likeAnIdea hex24 (okLikeEnv 1) (likeAnIdea hex24 (okLikeEnv 1) db0).2.1).2.1
       = (likeAnIdea hex24 (okLikeEnv 1) db0).2.1 ∧
     countLikes 1 oid24
       (likeAnIdea hex24 (okLikeEnv 1) (likeAnIdea hex24 (okLikeEnv 1) db0).2.1).2.1.likes = 1 ∧
     gazersOf oid24 (likeAnIdea hex24 (okLikeEnv 1) (likeAnIdea hex24 (okLikeEnv 1) db0).2.1).2.1
       = (gazersOf oid24 db0).map (fun g => g + 1)) :=
  ⟨⟨by decide, by decide, by decide⟩,
   C1_like_twice hex24 oid24 1 db0 idea0 (by decide) (by decide) (by decide)⟩

/-- Claim C2: the code violates the counter-equals-ledger invariant.
When the likes InsertOne fails after the gazers UpdateOne succeeded,
the call answers 500 and leaves gazers at one while the ledger holds
zero records for the pair, with no compensation. -/
theorem C2_counter_diverges_from_ledger :
    (likeAnIdea hex24 ⟨some 1, false, false, false, true⟩ db0).1 = 500 ∧
    gazersOf oid24 (likeAnIdea hex24 ⟨some 1, false, false, false, true⟩ db0).2.1 = some 1 ∧
    countLikes 1 oid24
      (likeAnIdea hex24 ⟨some 1, false, false, false, true⟩ db0).2.1.likes = 0 := by
  decide

/-- Claim C3: the code increments the counter before the ledger insert.
The storage trace of a like call places the gazers UpdateOne before the
likes InsertOne, and when that insert fails the increment stands
without any successful ledger insert. -/
theorem C3_increment_before_insert :
    (likeAnIdea hex24 ⟨some 1, false, false, false, true⟩ db0).2.2
      = [StorageOp.findIdea oid24, StorageOp.findLike 1 oid24,
         StorageOp.updateIdea oid24, StorageOp.insertLike 1 oid24] ∧
    gazersOf oid24 (likeAnIdea hex24 ⟨some 1, false, false, false, true⟩ db0).2.1 = some 1 ∧
    (likeAnIdea hex24 ⟨some 1, false, false, false, true⟩ db0).2.1.likes = [] := by
  decide

/-- Claim C8: a path parameter that is not a valid hex object id makes
likeAnIdea answer 400 with no storage call made and the store untouched,
whatever the rest of the environment does. -/
theorem C8_invalid_id_no_storage (s : List Char) (env : LikeEnv) (db : DBState)
    (h : objectIDFromHex s = none) :
    likeAnIdea s env db = (400, db, []) := by
  simp [likeAnIdea, h]

theorem C8_witness :
    objectIDFromHex ("not-a-hex-id".toList) = none ∧
    likeAnIdea ("not-a-hex-id".toList) (okLikeEnv 1) db0 = (400, db0, []) :=
  ⟨by decide, C8_invalid_id_no_storage ("not-a-hex-id".toList) (okLikeEnv 1) db0 (by decide)⟩

/-- Claim C9: when the likes FindOne of the duplicate check fails with
an error other than the no-documents result, the already-liked flag
keeps its initial value true, so the call answers 409 and changes no
state, whatever the likes collection holds. -/
theorem C9_decode_error_means_conflict (s : List Char) (oid : List Nat) (uid : Int)
    (db : DBState) (r : IdeaRec) (upd ins : Bool)
    (hhex : objectIDFromHex s = some oid)
    (hidea : findFirstIdea oid db.ideas = some r) :
    likeAnIdea s ⟨some uid, false, true, upd, ins⟩ db
      = (409, db, [StorageOp.findIdea oid, StorageOp.findLike uid oid]) := by
  simp [likeAnIdea, hhex, hidea]

theorem C9_witness :
    (objectIDFromHex hex24 = some oid24 ∧
     findFirstIdea oid24 db0.ideas = some idea0) ∧
    likeAnIdea hex24 ⟨some 1, false, true, false, false⟩ db0
      = (409, db0, [StorageOp.findIdea oid24, StorageOp.findLike 1 oid24]) :=
  ⟨⟨by decide, by decide⟩,
   C9_decode_error_means_conflict hex24 oid24 1 db0 idea0 false false (by decide) (by decide)⟩

/-- Claim C4: the duplicate check is an application-level FindOne
followed by a separate InsertOne, so two concurrent like calls by the
same user can interleave check before either insert: under the
schedule below both calls answer 200, gazers ends at two and the ledger
holds two records for the pair, not one success and one conflict. -/
theorem C4_race_both_succeed :
    (runTwo 1 oid24 [true, false, true, false, true, true, false, false]
        ⟨⟨.findIdea, none⟩, ⟨.findIdea, none⟩, db0⟩).ta.result = some 200 ∧
    (runTwo 1 oid24 [true, false, true, false, true, true, false, false]
        ⟨⟨.findIdea, none⟩, ⟨.findIdea, none⟩, db0⟩).tb.result = some 200 ∧
    gazersOf oid24 (runTwo 1 oid24 [true, false, true, false, true, true, false, false]
        ⟨⟨.findIdea, none⟩, ⟨.findIdea, none⟩, db0⟩).db = some 2 ∧
    countLikes 1 oid24 (runTwo 1 oid24 [true, false, true, false, true, true, false, false]
        ⟨⟨.findIdea, none⟩, ⟨.findIdea, none⟩, db0⟩).db.likes = 2 := by
  decide

theorem leadsWith_append (l x : List Char) : leadsWith l (l ++ x) = true := by
  induction l with
  | nil => rfl
  | cons a as ih => simp [leadsWith, ih]

theorem hasSubstr_append_self (sub x : List Char) : hasSubstr sub (sub ++ x) = true := by
  cases sub with
  | nil =>
    cases x with
    | nil => rfl
    | cons a r => simp [hasSubstr, leadsWith]
  | cons b bs =>
    show hasSubstr (b :: bs) (b :: (bs ++ x)) = true
    simp [hasSubstr, leadsWith, leadsWith_append]

theorem dropWhile_of_no (p : Char → Bool) (l : List Char)
    (h : ∀ c ∈ l, p c = false) : l.dropWhile p = l := by
  cases l with
  | nil => rfl
  | cons a t => simp [List.dropWhile_cons, h a (by simp)]

theorem hasSubstr_space_of_no (t : List Char) (h : ∀ c ∈ t, isSpaceChar c = false) :
    hasSubstr [' '] t = false := by
  induction t with
  | nil => rfl
  | cons a r ih =>
    have ha : isSpaceChar a = false := h a (by simp)
    have ha2 : a ≠ ' ' := by
      intro he
      rw [he] at ha
      simp [isSpaceChar] at ha
    have hne : (' ' == a) = false := beq_eq_false_iff_ne.mpr (fun he => ha2 he.symm)
    simp [hasSubstr, leadsWith, hne, ih (fun c hc => h c (by simp [hc]))]

/-- Claim C5 counterexample: the header Bearertoken is not of the
single-token Bearer form required by the spec, yet extractAuthHeader
accepts it and returns token, so the parser does not fail on every
string outside that form. -/
theorem C5_claim_false :
    specBearerForm ("Bearertoken".toList) = false ∧
    extractAuthHeader ("Bearertoken".toList) = some ("token".toList) := by
  decide

/-- Claim C5 as amended: on every header of the exact form Bearer
followed by one space and a nonempty token free of whitespace,
extractAuthHeader succeeds with that token; the parser is not the
claimed exact characterization, because it also accepts some other
strings (see the counterexample). -/
theorem C5_wellformed_header_ok (t : List Char) (_h1 : t ≠ [])
    (h2 : ∀ c ∈ t, isSpaceChar c = false) :
    extractAuthHeader (bearerChars ++ (' ' :: t)) = some t := by
  have hsub : hasSubstr bearerChars (bearerChars ++ (' ' :: t)) = true :=
    hasSubstr_append_self bearerChars (' ' :: t)
  have htrim : trimLead bearerChars (bearerChars ++ (' ' :: t)) = ' ' :: t := by
    simp [trimLead, leadsWith_append, List.drop_left]
  have hts : trimSpace (' ' :: t) = t := by
    unfold trimSpace
    have hsp : (' ' :: t).dropWhile isSpaceChar = t.dropWhile isSpaceChar := by
      simp [List.dropWhile_cons, isSpaceChar]
    rw [hsp, dropWhile_of_no _ _ h2, dropWhile_of_no, List.reverse_reverse]
    intro c hc
    exact h2 c (List.mem_reverse.mp hc)
  have hnosp : hasSubstr [' '] t = false := hasSubstr_space_of_no t h2
  simp only [bearerChars, List.cons_append, List.nil_append] at hsub htrim
  simp [extractAuthHeader, hsub, htrim, hts, hnosp, bearerChars]

theorem C5_amended_witness :
    ("abc".toList ≠ [] ∧ ∀ c ∈ "abc".toList, isSpaceChar c = false) ∧
    extractAuthHeader (bearerChars ++ (' ' :: "abc".toList)) = some ("abc".toList) :=
  ⟨⟨by decide, by decide⟩,
   C5_wellformed_header_ok ("abc".toList) (by decide) (by decide)⟩

/-- Claim C6: whenever the token exchange fails to yield a verified
identity, authenticateUser leaves the users collection untouched and
the client does not observe success. -/
theorem C6_failed_exchange_no_insert (env : AuthEnv) (users : List UserRec)
    (hfail : exchangeFails env) :
    (authenticateUser env users).2 = users ∧
    routerStatus (authenticateUser env users).1 ≠ 200 := by
  cases hb : env.bound with
  | none => simp [authenticateUser, hb, routerStatus]
  | some code =>
    cases hq : env.postReqErr with
    | true => simp [authenticateUser, hb, hq, routerStatus]
    | false =>
      cases hd : env.postDoErr with
      | true => simp [authenticateUser, hb, hq, hd, routerStatus]
      | false =>
        cases hr : env.postReadErr with
        | true => simp [authenticateUser, hb, hq, hd, hr, routerStatus]
        | false =>
          cases ht : env.tokenParsed with
          | none => simp [authenticateUser, hb, hq, hd, hr, ht, routerStatus]
          | some tok =>
            cases hp : getUserGithubProfile env.profileEnv with
            | none => simp [authenticateUser, hb, hq, hd, hr, ht, hp, routerStatus]
            | some p =>
              exfalso
              rcases hfail with h | h | h | h | h <;> simp_all

theorem C6_witness :
    exchangeFails emptyLoginEnv ∧
    ((authenticateUser emptyLoginEnv []).2 = [] ∧
     routerStatus (authenticateUser emptyLoginEnv []).1 ≠ 200) :=
  ⟨by simp only [exchangeFails]; decide,
   C6_failed_exchange_no_insert emptyLoginEnv []
     (by simp only [exchangeFails]; decide)⟩

theorem findUserRec_append (uid : Int) (l1 l2 : List UserRec)
    (h : findUserRec uid l1 = none) :
    findUserRec uid (l1 ++ l2) = findUserRec uid l2 := by
  induction l1 with
  | nil => rfl
  | cons a t ih =>
    by_cases hp : a.userID = uid
    · simp [findUserRec, hp] at h
    · simp only [findUserRec, if_neg hp] at h
      simp [findUserRec, hp, ih h]

theorem countUsers_append (uid : Int) (l1 l2 : List UserRec) :
    countUsers uid (l1 ++ l2) = countUsers uid l1 + countUsers uid l2 := by
  induction l1 with
  | nil => simp [countUsers]
  | cons a t ih => simp [countUsers, ih, Nat.add_assoc]

theorem countUsers_eq_zero (uid : Int) (l : List UserRec)
    (h : findUserRec uid l = none) : countUsers uid l = 0 := by
  induction l with
  | nil => rfl
  | cons a t ih =>
    by_cases hp : a.userID = uid
    · simp [findUserRec, hp] at h
    · simp only [findUserRec, if_neg hp] at h
      simp [countUsers, hp, ih h]

/-- Claim C7: provisioning is idempotent with first-write-wins
semantics.  From a directory without the external id, the first call
inserts one record built from the first profile, and a second call for
the same external id returns with the store unchanged, even when the
second profile carries a different login or display name. -/
theorem C7_provision_first_write_wins (u1 u2 : GithubUserProfileStructure)
    (users : List UserRec)
    (hid : u2.userID = u1.userID)
    (h0 : findUserRec u1.userID users = none) :
    addUserToDatabase u1 false false users
      = some (users ++ [⟨u1.userID, u1.login, u1.name⟩]) ∧
    addUserToDatabase u2 false false (users ++ [⟨u1.userID, u1.login, u1.name⟩])
      = some (users ++ [⟨u1.userID, u1.login, u1.name⟩]) ∧
    countUsers u1.userID (users ++ [⟨u1.userID, u1.login, u1.name⟩]) = 1 := by
  have hfind : findUserRec u1.userID (users ++ [⟨u1.userID, u1.login, u1.name⟩])
      = some ⟨u1.userID, u1.login, u1.name⟩ := by
    rw [findUserRec_append u1.userID users _ h0]
    simp [findUserRec]
  refine ⟨by simp [addUserToDatabase, h0], ?_, ?_⟩
  · simp [addUserToDatabase, hid, hfind]
  · simp [countUsers_append, countUsers_eq_zero u1.userID users h0, countUsers]

theorem C7_witness :
    ((5 : Int) = 5 ∧ findUserRec 5 ([] : List UserRec) = none) ∧
    (addUserToDatabase ⟨5, "alice".toList, "Alice".toList⟩ false false []
       = some ([] ++ [⟨5, "alice".toList, "Alice".toList⟩]) ∧
     addUserToDatabase ⟨5, "alice2".toList, "Alicia".toList⟩ false false
         ([] ++ [⟨5, "alice".toList, "Alice".toList⟩])
       = some ([] ++ [⟨5, "alice".toList, "Alice".toList⟩]) ∧
     countUsers 5 ([] ++ [⟨5, "alice".toList, "Alice".toList⟩]) = 1) :=
  ⟨⟨rfl, rfl⟩,
   C7_provision_first_write_wins ⟨5, "alice".toList, "Alice".toList⟩
     ⟨5, "alice2".toList, "Alicia".toList⟩ [] rfl rfl⟩

/-- Claim C10: when the request body binds but the token exchange
request build, round trip, body read or token decode fails, the error
branch formats errorDetails from the nil binding error, so the handler
crashes on the nil error value instead of reporting the upstream
failure. -/
theorem C10_nil_error_crash (env : AuthEnv) (users : List UserRec) (code : List Char)
    (hb : env.bound = some code)
    (hfail : env.postReqErr = true ∨ env.postDoErr = true ∨ env.postReadErr = true ∨
             env.tokenParsed = none) :
    (authenticateUser env users).1 = HandlerOutcome.nilErrCrash := by
  cases hq : env.postReqErr with
  | true => simp [authenticateUser, hb, hq]
  | false =>
    cases hd : env.postDoErr with
    | true => simp [authenticateUser, hb, hq, hd]
    | false =>
      cases hr : env.postReadErr with
      | true => simp [authenticateUser, hb, hq, hd, hr]
      | false =>
        cases ht : env.tokenParsed with
        | none => simp [authenticateUser, hb, hq, hd, hr, ht]
        | some tok =>
          exfalso
          rcases hfail with h | h | h | h <;> simp_all

theorem C10_witness :
    (doErrEnv.bound = some ("abc123".toList) ∧ doErrEnv.postDoErr = true) ∧
    (authenticateUser doErrEnv []).1 = HandlerOutcome.nilErrCrash :=
  ⟨⟨rfl, rfl⟩,
   C10_nil_error_crash doErrEnv [] ("abc123".toList) rfl (Or.inr (Or.inl rfl))⟩

end Sardene
